import Mathlib

/-! Shallow embedding of the `phenix-db` core (entity / edge / vector substrate).

Modelling conventions:
* `f32` values that only undergo field arithmetic and comparisons
  (`access_frequency`) are modelled as `ℚ`; `f32` values that flow through
  `exp` / `sqrt` (`Edge.probability`, `Edge.weight`, `Vector`'s norm) are
  modelled as `ℝ`.
* `u64` millisecond timestamps and counters are modelled as `ℕ`; the ambient
  clock `current_timestamp_ms()` is passed explicitly as a `now : ℕ` argument
  to every operation that reads it.  Theorems about elapsed time carry the
  hypothesis `last ≤ now` under which Rust's `u64` subtraction is well defined.
* The cached L2 norm of a `Vector` is represented by its square `normSq`
  (a `ℚ`, kept exactly); the real-valued cached norm is `Vector.norm`,
  i.e. `Real.sqrt normSq`, mirroring `compute_norm`'s sum-of-squares
  followed by `sqrt`.
* A Rust call that can panic is modelled with the outcome type `RustOutcome`,
  which distinguishes a normal return, a panic (with its message), and an
  error return carrying a `MemorySubstrateError` (the repository's error
  enum from `core/error.rs`).
* `serde_json::Value` payloads (`metadata`) and the out-of-scope
  `polynomial_embedding` / `compression_metadata` fields are opaque to every
  operation in this core, so their payload type is modelled as `Unit`.
-/

namespace PhenixDB

/-- Opaque 128-bit UUID-v7 identifier (`core/types.rs`); only equality is used
by the modelled operations, so it is represented by `ℕ`. -/
abbrev EntityId := ℕ

/-- The error enum of `core/error.rs` (`MemorySubstrateError`). -/
inductive MemorySubstrateError where
  | PolynomialError (msg : String)
  | GraphError (msg : String)
  | CompressionError (msg : String)
  | ConsensusError (msg : String)
  | TierError (msg : String)
  | LearningError (msg : String)
  | ConcurrencyError (msg : String)
  | InvariantViolation (msg : String)
  deriving DecidableEq

/-- Observable outcome of a Rust call: a normal return, a panic (with the
panic message), or an error return through the `Result` channel. -/
inductive RustOutcome (α : Type) where
  | ok (a : α)
  | panic (msg : String)
  | err (e : MemorySubstrateError)
  deriving DecidableEq

/-- Models `Vector` of `core/vector.rs`; the cached `norm : f32` is represented by
its exact square `normSq` (see module comment). -/
structure Vector where
  dimensions : ℕ
  values : List ℚ
  normSq : ℚ
  deriving DecidableEq

/-- The sum of squares computed inside `Vector::compute_norm` before `sqrt`. -/
def sumSq (values : List ℚ) : ℚ :=
  (values.map fun x => x * x).sum

/-- The real-valued cached norm: `compute_norm = sqrt (Σ xᵢ²)`. -/
noncomputable def Vector.norm (v : Vector) : ℝ :=
  Real.sqrt (v.normSq : ℝ)

/-- Models `Vector::new`: `assert!(!values.is_empty(), "Vector values cannot be
empty")`, then `dimensions = values.len()` and the norm is computed eagerly. -/
def Vector.new (values : List ℚ) : RustOutcome Vector :=
  if values.isEmpty then
    .panic "Vector values cannot be empty"
  else
    .ok { dimensions := values.length, values := values, normSq := sumSq values }

/-- Models `Vector::zeros`: all-zero values of the given length, cached norm `0.0`. -/
def Vector.zeros (dimensions : ℕ) : Vector :=
  { dimensions := dimensions
    values := List.replicate dimensions 0
    normSq := 0 }

/-- Rust `f32::clamp(0.0, 1.0)`: `min (max x 0) 1`. -/
noncomputable def clamp01 (x : ℝ) : ℝ :=
  min (max x 0) 1

/-- Models `Edge` of `core/edges.rs`.  The atomic `access_count` / `last_accessed`
cells are modelled by their current values (`ℕ`); the `serde_json::Value`
metadata payload is opaque (`Unit`). -/
structure Edge where
  source_id : EntityId
  target_id : EntityId
  label : String
  weight : ℝ
  metadata : Option Unit
  probability : ℝ
  access_count : ℕ
  last_accessed : ℕ

/-- Models `Edge::new`: clamps `weight` into `[0,1]`, initialises `probability` to
that weight, `access_count = 0`, `last_accessed = now`. -/
noncomputable def Edge.new (source_id target_id : EntityId) (label : String)
    (weight : ℝ) (metadata : Option Unit) (now : ℕ) : Edge :=
  let weight := clamp01 weight
  { source_id := source_id
    target_id := target_id
    label := label
    weight := weight
    metadata := metadata
    probability := weight
    access_count := 0
    last_accessed := now }

/-- Models `Edge::record_access`: increments `access_count`, stores `now` in
`last_accessed`. -/
def Edge.record_access (e : Edge) (now : ℕ) : Edge :=
  { e with access_count := e.access_count + 1, last_accessed := now }

/-- Models `Edge::update_probability`: clamps `target` and `learning_rate` to
`[0,1]`, applies `p ← p + lr * (target − p)`, then clamps `p` to `[0,1]`. -/
noncomputable def Edge.update_probability (e : Edge) (target learning_rate : ℝ) :
    Edge :=
  let target := clamp01 target
  let learning_rate := clamp01 learning_rate
  { e with probability := clamp01 (e.probability + learning_rate * (target - e.probability)) }

/-- Models `Edge::should_prune`: early-returns `true` when `probability < threshold`;
otherwise `true` exactly when `now − last_accessed > inactivity_days` in
milliseconds; else `false`. -/
noncomputable def Edge.should_prune (e : Edge) (threshold : ℝ)
    (inactivity_days : ℕ) (now : ℕ) : Prop :=
  if e.probability < threshold then True
  else
    let inactivity_ms := inactivity_days * 24 * 60 * 60 * 1000
    if now - e.last_accessed > inactivity_ms then True
    else False

/-- Models `Edge::apply_decay`: `days_elapsed = (now − last_accessed) / 86400000`,
`p ← clamp (p * exp (−decay_rate * days_elapsed)) 0 1`. -/
noncomputable def Edge.apply_decay (e : Edge) (decay_rate : ℝ) (now : ℕ) : Edge :=
  let days_elapsed : ℝ := ((now - e.last_accessed : ℕ) : ℝ) / (24 * 60 * 60 * 1000)
  let decay_factor := Real.exp (-decay_rate * days_elapsed)
  { e with probability := clamp01 (e.probability * decay_factor) }

/-- Models `MemoryTier` of `core/entity.rs`. -/
inductive MemoryTier where
  | Hot
  | Warm
  | Cold
  deriving DecidableEq

/-- Models `AccessStatistics` of `core/entity.rs`; `access_frequency : f32` is
modelled as `ℚ`. -/
structure AccessStatistics where
  total_accesses : ℕ
  last_access : ℕ
  access_frequency : ℚ
  co_access_entities : List EntityId
  deriving DecidableEq

/-- Models `AccessStatistics::new`. -/
def AccessStatistics.new (now : ℕ) : AccessStatistics :=
  { total_accesses := 0
    last_access := now
    access_frequency := 0
    co_access_entities := [] }

/-- Models `AccessStatistics::record_access`: computes `hours_elapsed` from the old
`last_access`, increments `total_accesses`, sets `last_access = now`, and
updates the EMA frequency only when `hours_elapsed > 0`. -/
def AccessStatistics.record_access (s : AccessStatistics) (now : ℕ) :
    AccessStatistics :=
  let hours_elapsed : ℚ := ((now - s.last_access : ℕ) : ℚ) / (60 * 60 * 1000)
  { s with
    total_accesses := s.total_accesses + 1
    last_access := now
    access_frequency :=
      if hours_elapsed > 0 then
        0.9 * s.access_frequency + 0.1 * (1 / hours_elapsed)
      else
        s.access_frequency }

/-- Models `AccessStatistics::record_co_access`: pushes the id if absent, then
removes index 0 when the length exceeds 100. -/
def AccessStatistics.record_co_access (s : AccessStatistics)
    (entity_id : EntityId) : AccessStatistics :=
  if entity_id ∈ s.co_access_entities then s
  else
    let l := s.co_access_entities ++ [entity_id]
    { s with co_access_entities := if l.length > 100 then l.tail else l }

/-- Models `AccessStatistics::hours_since_last_access`. -/
def AccessStatistics.hours_since_last_access (s : AccessStatistics) (now : ℕ) :
    ℚ :=
  ((now - s.last_access : ℕ) : ℚ) / (60 * 60 * 1000)

/-- Models `Entity` of `core/entity.rs`; `metadata`, `polynomial_embedding` and
`compression_metadata` payloads are opaque (`Unit`), as no modelled operation
inspects them. -/
structure Entity where
  id : EntityId
  vector : Option Vector
  metadata : Option Unit
  edges : Option (List Edge)
  created_at : ℕ
  updated_at : ℕ
  version : ℕ
  tier : MemoryTier
  polynomial_embedding : Option Unit
  access_statistics : AccessStatistics
  compression_metadata : Option Unit

/-- Models `Entity::new`: fresh id, both timestamps `now`, `version = 1`, `tier =
Hot`, empty statistics. -/
def Entity.new (id : EntityId) (vector : Option Vector) (metadata : Option Unit)
    (edges : Option (List Edge)) (now : ℕ) : Entity :=
  { id := id
    vector := vector
    metadata := metadata
    edges := edges
    created_at := now
    updated_at := now
    version := 1
    tier := MemoryTier.Hot
    polynomial_embedding := none
    access_statistics := AccessStatistics.new now
    compression_metadata := none }

/-- Models `Entity::record_access`: delegates to the statistics and bumps
`updated_at`. -/
def Entity.record_access (e : Entity) (now : ℕ) : Entity :=
  { e with
    access_statistics := e.access_statistics.record_access now
    updated_at := now }

/-- Models `Entity::should_promote`: Cold at `access_frequency ≥ 10.0`, Warm at
`≥ 100.0`, Hot never. -/
def Entity.should_promote (e : Entity) : Bool :=
  match e.tier with
  | MemoryTier.Cold => decide (e.access_statistics.access_frequency ≥ 10)
  | MemoryTier.Warm => decide (e.access_statistics.access_frequency ≥ 100)
  | MemoryTier.Hot => false

/-- Models `Entity::should_demote`: Hot at `frequency < 1.0` and `≥ 24` idle hours,
Warm at `frequency < 0.1` and `≥ 168` idle hours, Cold never. -/
def Entity.should_demote (e : Entity) (now : ℕ) : Bool :=
  let hours_since_access := e.access_statistics.hours_since_last_access now
  match e.tier with
  | MemoryTier.Hot =>
      decide (e.access_statistics.access_frequency < 1) &&
        decide (hours_since_access ≥ 24)
  | MemoryTier.Warm =>
      decide (e.access_statistics.access_frequency < 0.1) &&
        decide (hours_since_access ≥ 168)
  | MemoryTier.Cold => false

/-- Models `Entity::promote`: one-step tier raise, with `Hot` a self-loop; bumps
`updated_at`. -/
def Entity.promote (e : Entity) (now : ℕ) : Entity :=
  { e with
    tier :=
      match e.tier with
      | MemoryTier.Cold => MemoryTier.Warm
      | MemoryTier.Warm => MemoryTier.Hot
      | MemoryTier.Hot => MemoryTier.Hot
    updated_at := now }

/-- Models `Entity::demote`: one-step tier drop, with `Cold` a self-loop; bumps
`updated_at`. -/
def Entity.demote (e : Entity) (now : ℕ) : Entity :=
  { e with
    tier :=
      match e.tier with
      | MemoryTier.Hot => MemoryTier.Warm
      | MemoryTier.Warm => MemoryTier.Cold
      | MemoryTier.Cold => MemoryTier.Cold
    updated_at := now }

/- Concrete sample values used by closed counterexamples and witnesses. -/

/-- A sample entity as produced by `Entity::new` at time 0 with id 0. -/
def entity0 : Entity :=
  Entity.new 0 none none none 0

/-- A sample entity in the Cold tier with `access_frequency = 10`. -/
def entityCold10 : Entity :=
  { entity0 with
    tier := MemoryTier.Cold
    access_statistics := { AccessStatistics.new 0 with access_frequency := 10 } }

/-- A sample edge with `probability = 0.5` and `last_accessed = 0`. -/
noncomputable def edge0 : Edge :=
  { source_id := 0
    target_id := 1
    label := "related_to"
    weight := 0.5
    metadata := none
    probability := 0.5
    access_count := 0
    last_accessed := 0 }

/-- Sample statistics whose co-access history is exactly `[5]`. -/
def stats5 : AccessStatistics :=
  { AccessStatistics.new 0 with co_access_entities := [5] }

/-! Theorems settling the claims follow. -/

/-- The clamped value is nonnegative. -/
lemma clamp01_nonneg (x : ℝ) : 0 ≤ clamp01 x :=
  le_min (le_max_right x 0) zero_le_one

/-- The clamped value is at most one. -/
lemma clamp01_le_one (x : ℝ) : clamp01 x ≤ 1 :=
  min_le_right _ _

/-- Clamping is the identity on `[0,1]`. -/
lemma clamp01_of_mem {x : ℝ} (h0 : 0 ≤ x) (h1 : x ≤ 1) : clamp01 x = x := by
  unfold clamp01
  rw [max_eq_left h0, min_eq_left h1]

/-- C1 (counterexample): on a fresh entity (`version = 1`), a single call to
`record_access`, `promote`, or `demote` leaves `version` at 1 — none of them
yields `version = 2` as the claim requires. -/
theorem c1_version_not_incremented :
    entity0.version = 1 ∧
    (entity0.record_access 5).version = 1 ∧
    ¬ (entity0.record_access 5).version = entity0.version + 1 ∧
    (entity0.promote 5).version = 1 ∧
    ¬ (entity0.promote 5).version = entity0.version + 1 ∧
    (entity0.demote 5).version = 1 ∧
    ¬ (entity0.demote 5).version = entity0.version + 1 := by
  refine ⟨rfl, rfl, ?_, rfl, ?_, rfl, ?_⟩ <;> decide

/-- C1 (amended): `Entity::record_access`, `Entity::promote` and
`Entity::demote` leave the `version` field unchanged (they bump `updated_at`
instead); `version` is never incremented by these calls. -/
theorem c1_version_unchanged (e : Entity) (now : ℕ) :
    (e.record_access now).version = e.version ∧
    (e.promote now).version = e.version ∧
    (e.demote now).version = e.version :=
  ⟨rfl, rfl, rfl⟩

/-- C2: `should_promote` is true exactly on Cold entities with
`access_frequency ≥ 10` and Warm entities with `access_frequency ≥ 100`
(never on Hot), and `should_demote` is true exactly on Hot entities with
`access_frequency < 1` that have been idle ≥ 24 hours and Warm entities with
`access_frequency < 0.1` idle ≥ 168 hours (never on Cold); in Cold,
frequency exactly 10 promotes while 9.999 does not. -/
theorem c2_promotion_demotion_thresholds (e : Entity) (now : ℕ) :
    (e.should_promote = true ↔
      (e.tier = MemoryTier.Cold ∧ e.access_statistics.access_frequency ≥ 10) ∨
      (e.tier = MemoryTier.Warm ∧ e.access_statistics.access_frequency ≥ 100)) ∧
    (e.tier = MemoryTier.Hot → e.should_promote = false) ∧
    (e.should_demote now = true ↔
      (e.tier = MemoryTier.Hot ∧ e.access_statistics.access_frequency < 1 ∧
        e.access_statistics.hours_since_last_access now ≥ 24) ∨
      (e.tier = MemoryTier.Warm ∧ e.access_statistics.access_frequency < 0.1 ∧
        e.access_statistics.hours_since_last_access now ≥ 168)) ∧
    (e.tier = MemoryTier.Cold → e.should_demote now = false) ∧
    (e.tier = MemoryTier.Cold → e.access_statistics.access_frequency = 10 →
      e.should_promote = true) ∧
    (e.tier = MemoryTier.Cold → e.access_statistics.access_frequency = 9.999 →
      e.should_promote = false) := by
  refine ⟨?_, ?_, ?_, ?_, ?_, ?_⟩
  · cases h : e.tier <;>
      simp [Entity.should_promote, h, decide_eq_true_iff]
  · intro h
    simp [Entity.should_promote, h]
  · cases h : e.tier <;>
      simp [Entity.should_demote, h, decide_eq_true_iff]
  · intro h
    simp [Entity.should_demote, h]
  · intro h hf
    simp [Entity.should_promote, h, hf]
  · intro h hf
    simp [Entity.should_promote, h, hf]
    norm_num

/-- C2 (witness): the sample Cold entity with frequency exactly 10 is
promotable. -/
theorem c2_promotion_demotion_thresholds_witness :
    entityCold10.tier = MemoryTier.Cold ∧
    entityCold10.access_statistics.access_frequency = 10 ∧
    entityCold10.should_promote = true :=
  ⟨rfl, rfl,
    (c2_promotion_demotion_thresholds entityCold10 0).2.2.2.2.1 rfl rfl⟩

/-- C3: `promote` maps Cold→Warm, Warm→Hot, Hot→Hot and `demote` maps
Hot→Warm, Warm→Cold, Cold→Cold; a single `promote` from Cold never reaches
Hot. -/
theorem c3_tier_transitions_one_step (e : Entity) (now : ℕ) :
    (e.tier = MemoryTier.Cold → (e.promote now).tier = MemoryTier.Warm) ∧
    (e.tier = MemoryTier.Warm → (e.promote now).tier = MemoryTier.Hot) ∧
    (e.tier = MemoryTier.Hot → (e.promote now).tier = MemoryTier.Hot) ∧
    (e.tier = MemoryTier.Hot → (e.demote now).tier = MemoryTier.Warm) ∧
    (e.tier = MemoryTier.Warm → (e.demote now).tier = MemoryTier.Cold) ∧
    (e.tier = MemoryTier.Cold → (e.demote now).tier = MemoryTier.Cold) ∧
    (e.tier = MemoryTier.Cold → (e.promote now).tier ≠ MemoryTier.Hot) := by
  refine ⟨?_, ?_, ?_, ?_, ?_, ?_, ?_⟩ <;>
    · intro h
      simp [Entity.promote, Entity.demote, h]

/-- C3 (witness): from the sample Cold entity, one `promote` yields Warm and
not Hot. -/
theorem c3_tier_transitions_one_step_witness :
    entityCold10.tier = MemoryTier.Cold ∧
    (entityCold10.promote 5).tier = MemoryTier.Warm ∧
    (entityCold10.promote 5).tier ≠ MemoryTier.Hot :=
  ⟨rfl, (c3_tier_transitions_one_step entityCold10 5).1 rfl,
    (c3_tier_transitions_one_step entityCold10 5).2.2.2.2.2.2 rfl⟩

/-- C4: `update_probability` clamps `target` and `learning_rate` to `[0,1]`
and sets the probability to `clamp (p + lr * (target − p)) 0 1`; the result
always lies in `[0,1]`, and from `p = 0.5` with `target = 0.8`,
`learning_rate = 0.1` the result is `0.53`. -/
theorem c4_update_probability (e : Edge) (target lr : ℝ) :
    (e.update_probability target lr).probability =
      clamp01 (e.probability + clamp01 lr * (clamp01 target - e.probability)) ∧
    0 ≤ (e.update_probability target lr).probability ∧
    (e.update_probability target lr).probability ≤ 1 ∧
    (e.probability = 0.5 → (e.update_probability 0.8 0.1).probability = 0.53) := by
  refine ⟨rfl, clamp01_nonneg _, clamp01_le_one _, ?_⟩
  intro h
  show clamp01 (e.probability + clamp01 0.1 * (clamp01 0.8 - e.probability)) = 0.53
  have ha : clamp01 (0.1 : ℝ) = 0.1 := clamp01_of_mem (by norm_num) (by norm_num)
  have hb : clamp01 (0.8 : ℝ) = 0.8 := clamp01_of_mem (by norm_num) (by norm_num)
  rw [h, ha, hb, show (0.5 : ℝ) + 0.1 * (0.8 - 0.5) = 0.53 by norm_num]
  exact clamp01_of_mem (by norm_num) (by norm_num)

/-- C4 (witness): on the sample edge with probability `0.5`, updating towards
`0.8` with learning rate `0.1` gives probability `0.53`. -/
theorem c4_update_probability_witness :
    edge0.probability = 0.5 ∧
    (edge0.update_probability 0.8 0.1).probability = 0.53 :=
  ⟨rfl, (c4_update_probability edge0 0 0).2.2.2 rfl⟩

/-- C6: `should_prune threshold inactivity_days` holds iff the probability is
below the threshold or `now − last_accessed` strictly exceeds
`inactivity_days` in milliseconds; each condition alone suffices. -/
theorem c6_should_prune_iff (e : Edge) (threshold : ℝ) (d now : ℕ) :
    (e.should_prune threshold d now ↔
      e.probability < threshold ∨
        now > e.last_accessed + d * 24 * 60 * 60 * 1000) ∧
    (e.probability < threshold → e.should_prune threshold d now) ∧
    (now > e.last_accessed + d * 24 * 60 * 60 * 1000 →
      e.should_prune threshold d now) := by
  have key : e.should_prune threshold d now ↔
      e.probability < threshold ∨
        now > e.last_accessed + d * 24 * 60 * 60 * 1000 := by
    unfold Edge.should_prune
    by_cases h1 : e.probability < threshold
    · simp [h1]
    · by_cases h2 : now - e.last_accessed > d * 24 * 60 * 60 * 1000
      · simp [h1, h2]
        omega
      · simp [h1, h2]
        omega
  exact ⟨key, fun h => key.mpr (Or.inl h), fun h => key.mpr (Or.inr h)⟩

/-- C6 (witness): the sample edge with probability `0.5` is prunable under a
threshold of `0.6` regardless of recency. -/
theorem c6_should_prune_iff_witness :
    edge0.probability < 0.6 ∧ edge0.should_prune 0.6 30 0 :=
  ⟨by norm_num [edge0], (c6_should_prune_iff edge0 0.6 30 0).2.1 (by norm_num [edge0])⟩

/-- C7: `apply_decay` replaces the probability with
`clamp (p * exp (−rate * days_elapsed)) 0 1`, where `days_elapsed` counts
from `last_accessed` to `now`, and leaves every other field of the edge
unchanged. -/
theorem c7_apply_decay_frame (e : Edge) (rate : ℝ) (now : ℕ)
    (h : e.last_accessed ≤ now) :
    (e.apply_decay rate now).probability =
      clamp01 (e.probability *
        Real.exp (-rate * (((now : ℝ) - (e.last_accessed : ℝ)) / (24 * 60 * 60 * 1000)))) ∧
    (e.apply_decay rate now).last_accessed = e.last_accessed ∧
    (e.apply_decay rate now).access_count = e.access_count ∧
    (e.apply_decay rate now).weight = e.weight ∧
    (e.apply_decay rate now).label = e.label ∧
    (e.apply_decay rate now).source_id = e.source_id ∧
    (e.apply_decay rate now).target_id = e.target_id ∧
    (e.apply_decay rate now).metadata = e.metadata := by
  refine ⟨?_, rfl, rfl, rfl, rfl, rfl, rfl, rfl⟩
  show clamp01 (e.probability *
      Real.exp (-rate * (((now - e.last_accessed : ℕ) : ℝ) / (24 * 60 * 60 * 1000)))) = _
  rw [Nat.cast_sub h]

/-- C7 (witness): decaying the sample edge at time 5 does not change its
`last_accessed` timestamp. -/
theorem c7_apply_decay_frame_witness :
    edge0.last_accessed ≤ 5 ∧
    (edge0.apply_decay 1 5).last_accessed = edge0.last_accessed :=
  ⟨by decide, (c7_apply_decay_frame edge0 1 5 (by decide)).2.1⟩

/-- One `record_co_access` call preserves boundedness and duplicate-freeness
of the co-access history. -/
lemma recordCoAccess_preserves_inv (s : AccessStatistics) (a : EntityId)
    (hlen : s.co_access_entities.length ≤ 100)
    (hnd : s.co_access_entities.Nodup) :
    (s.record_co_access a).co_access_entities.length ≤ 100 ∧
    (s.record_co_access a).co_access_entities.Nodup := by
  unfold AccessStatistics.record_co_access
  by_cases hmem : a ∈ s.co_access_entities
  · simp only [hmem, if_true]
    exact ⟨hlen, hnd⟩
  · simp only [hmem, if_false]
    have hlnd : (s.co_access_entities ++ [a]).Nodup := by
      simp [List.nodup_append, hnd, hmem]
    by_cases hlong : (s.co_access_entities ++ [a]).length > 100
    · simp only [hlong, if_true]
      refine ⟨?_, hlnd.tail⟩
      have := List.length_tail (s.co_access_entities ++ [a])
      have hl : (s.co_access_entities ++ [a]).length =
          s.co_access_entities.length + 1 := by simp
      omega
    · simp only [hlong, if_false]
      have hl : (s.co_access_entities ++ [a]).length =
          s.co_access_entities.length + 1 := by simp
      exact ⟨by omega, hlnd⟩

/-- The invariant of `recordCoAccess_preserves_inv`, folded over any call
sequence. -/
lemma foldl_recordCoAccess_inv (ids : List EntityId) (s : AccessStatistics)
    (hlen : s.co_access_entities.length ≤ 100)
    (hnd : s.co_access_entities.Nodup) :
    (ids.foldl AccessStatistics.record_co_access s).co_access_entities.length ≤ 100 ∧
    (ids.foldl AccessStatistics.record_co_access s).co_access_entities.Nodup := by
  induction ids generalizing s with
  | nil => exact ⟨hlen, hnd⟩
  | cons a as ih =>
    simp only [List.foldl_cons]
    exact ih _ (recordCoAccess_preserves_inv s a hlen hnd).1
      (recordCoAccess_preserves_inv s a hlen hnd).2

/-- C5: starting from fresh statistics, any sequence of `record_co_access`
calls keeps the co-access history at most 100 entries long and free of
duplicates; recording an id already present changes nothing, and recording a
new id when the history holds 100 entries evicts the earliest-inserted entry
(FIFO). -/
theorem c5_co_access_history (s : AccessStatistics) (a : EntityId)
    (ids : List EntityId) (now : ℕ) :
    ((ids.foldl AccessStatistics.record_co_access
        (AccessStatistics.new now)).co_access_entities.length ≤ 100 ∧
      (ids.foldl AccessStatistics.record_co_access
        (AccessStatistics.new now)).co_access_entities.Nodup) ∧
    (a ∈ s.co_access_entities → s.record_co_access a = s) ∧
    (s.co_access_entities.length = 100 → a ∉ s.co_access_entities →
      (s.record_co_access a).co_access_entities =
        s.co_access_entities.tail ++ [a]) := by
  refine ⟨foldl_recordCoAccess_inv ids _ (by simp [AccessStatistics.new])
    (by simp [AccessStatistics.new]), ?_, ?_⟩
  · intro hmem
    simp [AccessStatistics.record_co_access, hmem]
  · intro h100 hmem
    have hlong : (s.co_access_entities ++ [a]).length > 100 := by
      simp [h100]
    simp only [AccessStatistics.record_co_access, hmem, if_false, hlong, if_true]
    cases hco : s.co_access_entities with
    | nil => rw [hco] at h100; simp at h100
    | cons b bs => simp

/-- C5 (witness): recording id 5 into statistics whose history is `[5]`
leaves the statistics unchanged. -/
theorem c5_co_access_history_witness :
    (5 : EntityId) ∈ stats5.co_access_entities ∧
    stats5.record_co_access 5 = stats5 :=
  ⟨by decide, (c5_co_access_history stats5 5 [] 0).2.1 (by decide)⟩

/-- C8: `AccessStatistics::record_access` increments `total_accesses`, sets
`last_access = now`, and updates the EMA frequency to
`0.9 * old + 0.1 * (1 / hours_elapsed)` exactly when the elapsed time is a
positive number of hours, leaving the frequency unchanged on a
same-millisecond access. -/
theorem c8_record_access_ema (s : AccessStatistics) (now : ℕ)
    (h : s.last_access ≤ now) :
    (s.record_access now).total_accesses = s.total_accesses + 1 ∧
    (s.record_access now).last_access = now ∧
    (s.last_access < now →
      (s.record_access now).access_frequency =
        0.9 * s.access_frequency +
          0.1 * (1 / (((now : ℚ) - (s.last_access : ℚ)) / (60 * 60 * 1000)))) ∧
    (s.last_access = now →
      (s.record_access now).access_frequency = s.access_frequency) := by
  refine ⟨rfl, rfl, ?_, ?_⟩
  · intro hlt
    have hcast : ((now - s.last_access : ℕ) : ℚ) = (now : ℚ) - (s.last_access : ℚ) :=
      Nat.cast_sub h
    have hpos : (0 : ℚ) < ((now - s.last_access : ℕ) : ℚ) / (60 * 60 * 1000) := by
      apply div_pos
      · exact_mod_cast Nat.sub_pos_of_lt hlt
      · norm_num
    show (if ((now - s.last_access : ℕ) : ℚ) / (60 * 60 * 1000) > 0 then
        0.9 * s.access_frequency +
          0.1 * (1 / (((now - s.last_access : ℕ) : ℚ) / (60 * 60 * 1000)))
      else s.access_frequency) = _
    rw [if_pos hpos, hcast]
  · intro heq
    have h0 : ((now - s.last_access : ℕ) : ℚ) / (60 * 60 * 1000) = 0 := by
      rw [heq]
      simp
    show (if ((now - s.last_access : ℕ) : ℚ) / (60 * 60 * 1000) > 0 then
        0.9 * s.access_frequency +
          0.1 * (1 / (((now - s.last_access : ℕ) : ℚ) / (60 * 60 * 1000)))
      else s.access_frequency) = _
    rw [if_neg (by rw [h0]; exact lt_irrefl 0)]

/-- C8 (witness): recording an access one hour after the last one increments
the counter on fresh statistics. -/
theorem c8_record_access_ema_witness :
    (AccessStatistics.new 0).last_access ≤ 3600000 ∧
    ((AccessStatistics.new 0).record_access 3600000).total_accesses =
      (AccessStatistics.new 0).total_accesses + 1 :=
  ⟨by decide, (c8_record_access_ema (AccessStatistics.new 0) 3600000 (by decide)).1⟩

/-- C9 (counterexample): `Vector::new` on the empty list panics with
"Vector values cannot be empty"; it does not return the `InvariantViolation`
error kind (nor any other error) to the caller. -/
theorem c9_new_empty_panics :
    Vector.new ([] : List ℚ) =
      RustOutcome.panic "Vector values cannot be empty" ∧
    ∀ msg : String,
      Vector.new ([] : List ℚ) ≠
        RustOutcome.err (MemorySubstrateError.InvariantViolation msg) := by
  refine ⟨rfl, ?_⟩
  intro msg hcontra
  simp [Vector.new] at hcontra

/-- C9 (amended): constructing from an empty value sequence fails by
panicking (assertion failure, message "Vector values cannot be empty"), so no
Vector is produced, but no error kind is signaled; constructing from any
non-empty sequence succeeds and eagerly computes the norm as
`sqrt (Σ vᵢ²)`. -/
theorem c9_new_empty_fails_nonempty_norm (v : List ℚ) :
    (v = [] →
      Vector.new v = RustOutcome.panic "Vector values cannot be empty") ∧
    (v ≠ [] →
      Vector.new v = RustOutcome.ok
        { dimensions := v.length, values := v, normSq := sumSq v } ∧
      Vector.norm
          { dimensions := v.length, values := v, normSq := sumSq v } =
        Real.sqrt (((v.map fun x => x * x).sum : ℚ) : ℝ)) := by
  constructor
  · intro h
    subst h
    rfl
  · intro h
    cases v with
    | nil => exact absurd rfl h
    | cons a as => exact ⟨rfl, rfl⟩

/-- C9 (witness): constructing from `[3, 4]` succeeds with the cached
sum-of-squares `25`. -/
theorem c9_new_empty_fails_nonempty_norm_witness :
    ([3, 4] : List ℚ) ≠ [] ∧
    Vector.new [3, 4] =
      RustOutcome.ok
        { dimensions := ([3, 4] : List ℚ).length, values := [3, 4],
          normSq := sumSq [3, 4] } ∧
    sumSq [3, 4] = 25 :=
  ⟨by simp, ((c9_new_empty_fails_nonempty_norm [3, 4]).2 (by simp)).1,
    by norm_num [sumSq]⟩

/-- C10 (counterexample): `Vector::zeros 0` produces a vector with
`dimensions = 0`, violating the claimed `dimensions ≥ 1` shape invariant. -/
theorem c10_zeros_zero_dimensions :
    (Vector.zeros 0).dimensions = 0 ∧ ¬ 1 ≤ (Vector.zeros 0).dimensions := by
  refine ⟨rfl, ?_⟩
  decide

/-- C10 (amended): every successfully constructed vector from `Vector::new`
has `dimensions ≥ 1` and `|values| = dimensions`; `Vector::zeros d` always
has `|values| = dimensions = d`, but satisfies `dimensions ≥ 1` only when
`d ≥ 1`. -/
theorem c10_shape_invariant (v : List ℚ) (w : Vector) (d : ℕ) :
    (Vector.new v = RustOutcome.ok w →
      1 ≤ w.dimensions ∧ w.values.length = w.dimensions) ∧
    (Vector.zeros d).values.length = (Vector.zeros d).dimensions ∧
    (1 ≤ d → 1 ≤ (Vector.zeros d).dimensions) := by
  refine ⟨?_, by simp [Vector.zeros], fun hd => hd⟩
  intro h
  cases v with
  | nil => simp [Vector.new] at h
  | cons a as =>
    have h' :
        RustOutcome.ok
            { dimensions := (a :: as).length, values := a :: as,
              normSq := sumSq (a :: as) } =
          RustOutcome.ok w := h
    injection h' with h2
    rw [← h2]
    exact ⟨Nat.succ_le_succ (Nat.zero_le _), rfl⟩

/-- C10 (witness): `Vector::new [1]` yields a vector of dimension 1 whose
values list has length equal to its dimensions. -/
theorem c10_shape_invariant_witness :
    Vector.new [1] =
      RustOutcome.ok
        { dimensions := ([1] : List ℚ).length, values := [1],
          normSq := sumSq [1] } ∧
    1 ≤ (Vector.mk ([1] : List ℚ).length [1] (sumSq [1])).dimensions ∧
    (Vector.mk ([1] : List ℚ).length [1] (sumSq [1])).values.length =
      (Vector.mk ([1] : List ℚ).length [1] (sumSq [1])).dimensions :=
  ⟨rfl,
    (c10_shape_invariant [1] (Vector.mk ([1] : List ℚ).length [1] (sumSq [1])) 1).1 rfl⟩

end PhenixDB
